import Mathlib

/-!
Shallow embedding of `src/docker/main.py` (ProfessorZel/vpn-autorecovery).

The program is a single-file monitor: `check_service` (the Prober,
lines 63-85), `get_ssh_config` / `execute_ssh_command` (the Remediator,
lines 52-61 and 87-125), `send_telegram_alert` (the Notifier,
lines 127-157), and `main` (the Scheduler and per-pair state machine,
lines 159-316).

Modelling conventions:
- Python floats and `time.time()` timestamps are modelled as rationals.
- The per-attempt outcome of one HTTP GET (a transport error or a
  response with a status code and an elapsed wall-clock time) is an
  input to the model, since it is decided by the network.
- Functions that catch all exceptions in the source (`check_service`,
  `execute_ssh_command`, `send_telegram_alert`) are modelled as total
  functions; the one uncaught exception path inside the monitoring loop
  (the `int(...)` conversion in `get_ssh_config`) is modelled with
  `Except`.
- Side effects (SSH command executions, Telegram alerts) are recorded
  as an explicit effect list.
-/

namespace VpnMonitor

/-! ### Prober: `check_service`, lines 63-85 -/

/-- What one HTTP GET attempt produced: a transport-level exception
(caught by the `except` clause, line 78) or a response with its status
code and the elapsed time of the attempt in seconds. -/
inductive AttemptOutcome where
  | err : AttemptOutcome
  | resp (status : ℕ) (elapsedSec : ℚ) : AttemptOutcome

/-- `response.ok` of the requests library (line 74): true iff
`raise_for_status` would not raise, i.e. the status code is not in the
client-error range 400-499 nor the server-error range 500-599. -/
def respOk (status : ℕ) : Bool :=
  !(decide (400 ≤ status) && decide (status < 600))

/-- Python's `round` for a value already scaled: round half to even. -/
def roundHalfEven (q : ℚ) : ℤ :=
  if q - ⌊q⌋ < 1/2 then ⌊q⌋
  else if 1/2 < q - ⌊q⌋ then ⌊q⌋ + 1
  else if ⌊q⌋ % 2 = 0 then ⌊q⌋ else ⌊q⌋ + 1

/-- `round(x, 2)` (line 72): round to 2 decimal places. -/
def round2 (q : ℚ) : ℚ := (roundHalfEven (q * 100) : ℚ) / 100

/-- An attempt counts as failed when it raised a transport error or
returned a response with `response.ok` false (lines 74-79). -/
def failedAttempt : AttemptOutcome → Bool
  | .err => true
  | .resp s _ => !respOk s

/-- The retry loop of `check_service` (lines 68-85): `remaining`
attempts are left, the current one is numbered `attempt` (1-based).
On a response with `response.ok` the function returns immediately with
the attempt's elapsed time in milliseconds rounded to 2 decimals and
the attempt number; once attempts are exhausted it returns
`(false, 0, maxAttempts)` (line 85). -/
def checkLoop (outcome : ℕ → AttemptOutcome) (maxAttempts : ℕ) :
    ℕ → ℕ → Bool × ℚ × ℕ
  | 0, _ => (false, 0, maxAttempts)
  | remaining + 1, attempt =>
    match outcome attempt with
    | .resp s e =>
      if respOk s then (true, round2 (e * 1000), attempt)
      else checkLoop outcome maxAttempts remaining (attempt + 1)
    | .err => checkLoop outcome maxAttempts remaining (attempt + 1)

/-- `check_service(url, max_attempts, retry_delay)` (lines 63-85).
The url only selects which server answers and `retry_delay` only adds
sleeps, so neither affects the returned triple; `outcome k` is what
attempt number `k` produced. -/
def check_service (outcome : ℕ → AttemptOutcome) (maxAttempts : ℕ) :
    Bool × ℚ × ℕ :=
  checkLoop outcome maxAttempts maxAttempts 1

/-! ### Remediator configuration: `get_ssh_config`, lines 52-61 -/

/-- The five `{SITE}_SSH_*` environment variables as read by
`os.getenv`: `none` when unset (an empty string is a set variable). -/
structure SSHEnv where
  host : Option String
  port : Option String
  username : Option String
  password : Option String
  key : Option String

/-- The dict built by `get_ssh_config` after the port was converted
with `int(...)` (line 57). -/
structure SSHConfig where
  host : Option String
  port : ℤ
  username : Option String
  password : Option String
  key : Option String

/-- Python truthiness of an optional string: `None` and `""` are
falsy. -/
def truthyStr : Option String → Bool
  | none => false
  | some s => !s.isEmpty

/-- Decimal digit accumulator for `pyInt`. -/
def parseNatAux : List Char → ℕ → Option ℕ
  | [], acc => some acc
  | c :: cs, acc =>
    if c.isDigit then parseNatAux cs (acc * 10 + (c.toNat - 48))
    else none

/-- Python's `int(str)` on the strings relevant here: an optional sign
followed by at least one decimal digit; anything else raises
`ValueError`. -/
def pyInt (s : String) : Except String ℤ :=
  match s.toList with
  | [] => .error "invalid literal for int"
  | '-' :: cs =>
    if cs.isEmpty then .error "invalid literal for int"
    else
      match parseNatAux cs 0 with
      | some n => .ok (-(n : ℤ))
      | none => .error "invalid literal for int"
  | '+' :: cs =>
    if cs.isEmpty then .error "invalid literal for int"
    else
      match parseNatAux cs 0 with
      | some n => .ok (n : ℤ)
      | none => .error "invalid literal for int"
  | cs =>
    match parseNatAux cs 0 with
    | some n => .ok (n : ℤ)
    | none => .error "invalid literal for int"

/-- `get_ssh_config(dc_name)` (lines 52-61): reads the five variables
and converts the port with `int(os.getenv(..., "22"))`; the conversion
raises (modelled as `.error`) when the variable is set to a
non-numeric string. -/
def get_ssh_config (e : SSHEnv) : Except String SSHConfig :=
  (pyInt (e.port.getD "22")).map
    (fun p => ⟨e.host, p, e.username, e.password, e.key⟩)

/-- `all(dc_config.values())` (line 276): every one of host, port,
username, password and key must be truthy for the remediation command
to run. -/
def allTruthy (c : SSHConfig) : Bool :=
  truthyStr c.host && decide (c.port ≠ 0) && truthyStr c.username &&
    truthyStr c.password && truthyStr c.key

/-- Which credential `execute_ssh_command` uses. -/
inductive Cred where
  | keyfile : Cred
  | password : Cred
deriving DecidableEq

/-- Credential selection of `execute_ssh_command` (lines 99-103): the
private key is used when the `key` entry is truthy, otherwise the
password. -/
def credentialUsed (c : SSHConfig) : Cred :=
  if truthyStr c.key then .keyfile else .password

/-! ### Configuration and per-pair state (lines 174-199) -/

/-- The scheduling configuration parsed in `main` (lines 176-187). -/
structure Config where
  base_interval : ℚ
  max_interval : ℚ
  backoff_factor : ℚ
  check_attempts : ℕ

/-- The `BACKOFF_FACTOR` floor applied at startup (lines 181-183). -/
def clampFactor (f : ℚ) : ℚ := if f < 1 then 1 else f

/-- The per-pair entries of the four state dicts
`service_status`, `current_intervals`, `attempt_counters` and
`next_checks` (lines 196-199). -/
structure PairState where
  available : Bool
  current_interval : ℚ
  attempt_counter : ℕ
  next_check : ℚ

/-- Initial per-pair state (lines 196-199): optimistic `True`, the
base interval, a zero counter, and `next_checks = 0` so the first tick
checks immediately. -/
def initState (cfg : Config) : PairState :=
  ⟨true, cfg.base_interval, 0, 0⟩

/-- The backoff update `min(current * factor, max)` (line 287). -/
def nextInterval (current factor maxI : ℚ) : ℚ :=
  min (current * factor) maxI

/-- The interval after `n` consecutive applications of the backoff
update to a starting interval `c0`. -/
def iterInterval (c0 f m : ℚ) : ℕ → ℚ
  | 0 => c0
  | n + 1 => nextInterval (iterInterval c0 f m n) f m

/-! ### One check of one due pair (lines 229-313) -/

/-- The observable side effects of one check: an SSH command execution
(`execute_ssh_command`, line 280, with the credential used, the command
text, and its success flag and captured output), the logged skip when
the SSH configuration is incomplete (line 277), and a Telegram alert
(lines 260-266 and 305-310, with its `next_check`, `attempt_count` and
`is_recovered` arguments). -/
inductive Effect where
  | remediate (cred : Cred) (command : String) (success : Bool)
      (output : String) : Effect
  | skipRemediation : Effect
  | alert (nextCheck : ℚ) (attemptCount : ℕ) (isRecovered : Bool) : Effect

/-- Whether an effect is an `execute_ssh_command` invocation. -/
def isRemediate : Effect → Bool
  | .remediate _ _ _ _ => true
  | _ => false

/-- Number of `execute_ssh_command` invocations in an effect list. -/
def countRemediate (l : List Effect) : ℕ := l.countP isRemediate

/-- The `is_available` branch of the status handling (lines 250-269):
on a recovery the status flips to `True`, the interval resets to the
base interval, the recovery alert is sent carrying the pre-reset
counter, and only then is the counter reset to 0; when the pair was
already available nothing happens. `next_check` is written separately
(line 313). -/
def handleSuccess (cfg : Config) (s : PairState) : PairState × List Effect :=
  if s.available then (s, [])
  else
    ({ s with
        available := true
        current_interval := cfg.base_interval
        attempt_counter := 0 },
      [Effect.alert cfg.base_interval s.attempt_counter true])

/-- The failure branch (lines 270-310): increment the counter, run the
remediation command when `all(dc_config.values())` holds and log a
skip otherwise, apply the backoff update, mark the pair unavailable,
and send the alert carrying the new interval and the incremented
counter. -/
def handleFailure (cfg : Config) (c : SSHConfig) (command : String)
    (sshRes : Bool × String) (s : PairState) : PairState × List Effect :=
  let counter := s.attempt_counter + 1
  let remEffs :=
    if allTruthy c then
      [Effect.remediate (credentialUsed c) command sshRes.1 sshRes.2]
    else [Effect.skipRemediation]
  let newInterval :=
    nextInterval s.current_interval cfg.backoff_factor cfg.max_interval
  ({ s with
      available := false
      current_interval := newInterval
      attempt_counter := counter },
    remEffs ++ [Effect.alert newInterval counter false])

/-- Line 313: `next_checks[pair] = current_time + current_intervals[pair]`,
with `current_time` the snapshot taken at the start of the tick
(line 211). -/
def setNextCheck (t : ℚ) (s : PairState) : PairState :=
  { s with next_check := t + s.current_interval }

/-- A successful check of a due pair: status handling followed by the
`next_checks` write. -/
def checkSuccess (cfg : Config) (s : PairState) (t : ℚ) :
    PairState × List Effect :=
  (setNextCheck t (handleSuccess cfg s).1, (handleSuccess cfg s).2)

/-- A failed check of a due pair: status handling followed by the
`next_checks` write. -/
def checkFailure (cfg : Config) (c : SSHConfig) (command : String)
    (sshRes : Bool × String) (s : PairState) (t : ℚ) :
    PairState × List Effect :=
  (setNextCheck t (handleFailure cfg c command sshRes s).1,
    (handleFailure cfg c command sshRes s).2)

/-- The triple returned by `check_service` as consumed by `main`
(line 229). -/
structure ProbeResult where
  isAvailable : Bool
  responseTime : ℚ
  attemptsMade : ℕ

/-- The whole handling of one due pair after its probe (lines 241-313).
On a failed probe `get_ssh_config` is called (line 275); its `int(...)`
conversion is the only statement in the loop body that can raise, and
when it does the rest of the iteration (and the loop) is abandoned,
modelled by `.error`. -/
def processCheck (cfg : Config) (envS : SSHEnv) (command : String)
    (sshRes : Bool × String) (s : PairState) (pr : ProbeResult) (t : ℚ) :
    Except String (PairState × List Effect) :=
  if pr.isAvailable then .ok (checkSuccess cfg s t)
  else
    (get_ssh_config envS).map
      (fun c => checkFailure cfg c command sshRes s t)

/-- The number of `execute_ssh_command` invocations a check performed
(none when the iteration aborted on the `get_ssh_config` exception). -/
def remediationCount : Except String (PairState × List Effect) → ℕ
  | .error _ => 0
  | .ok (_, effs) => countRemediate effs

/-- The site's SSH environment passes the completeness gate of
line 276: the port parses and every field is truthy. -/
def sshComplete (e : SSHEnv) : Bool :=
  match get_ssh_config e with
  | .ok c => allTruthy c
  | .error _ => false

/-- One probe-and-handle input for a trace of checks of one pair:
whether the probe succeeded, the SSH command result, and the tick
snapshot time of the check. -/
structure CheckInput where
  isAvailable : Bool
  sshRes : Bool × String
  time : ℚ

/-- The state after one checked tick of one pair (the state part of
`checkSuccess`/`checkFailure`). -/
def stepCheck (cfg : Config) (c : SSHConfig) (command : String)
    (s : PairState) (i : CheckInput) : PairState :=
  if i.isAvailable then (checkSuccess cfg s i.time).1
  else (checkFailure cfg c command i.sshRes s i.time).1

/-- The state of one pair after a sequence of checked ticks starting
from the initial state. -/
def runChecks (cfg : Config) (c : SSHConfig) (command : String)
    (inputs : List CheckInput) : PairState :=
  inputs.foldl (stepCheck cfg c command) (initState cfg)

/-- The wall-clock time at which a check that began at the tick
snapshot `t` completed, `d` being the duration the probe, the
remediation and the notification together took (for example three
probe attempts at the 10-second request timeout alone give `d ≈ 30`). -/
def checkCompletion (t d : ℚ) : ℚ := t + d

/-! ### The scheduling tick (lines 210-316) -/

/-- A monitored `(site, service)` pair. -/
abbrev Pair := String × String

/-- The four per-pair dicts, keyed by the pair: duplicates of a pair
in the mapping list index the same entry. -/
abbrev StateMap := Pair → PairState

/-- The environment one tick runs against: the `{SERVICE}_URL`
variables, the per-site SSH variables, the per-attempt probe outcomes,
the per-pair SSH command results, and the `COMMAND` string. -/
structure TickEnv where
  urlEnv : String → Option String
  sshEnvOf : String → SSHEnv
  attemptsOf : Pair → ℕ → AttemptOutcome
  sshResOf : Pair → Bool × String
  command : String

/-- Dict update `d[pair] = v`. -/
def updateMap (m : StateMap) (p : Pair) (v : PairState) : StateMap :=
  fun q => if q = p then v else m q

/-- The probe of one pair (lines 229-233): `check_service` with the
configured number of attempts. -/
def probeOf (env : TickEnv) (cfg : Config) (p : Pair) : ProbeResult :=
  ⟨(check_service (env.attemptsOf p) cfg.check_attempts).1,
    (check_service (env.attemptsOf p) cfg.check_attempts).2.1,
    (check_service (env.attemptsOf p) cfg.check_attempts).2.2⟩

/-- One iteration of the `for pair in mappings` body (lines 213-313),
accumulating the state dicts and the list of pairs actually probed:
skip the pair when it is not yet due (line 217); when its URL variable
is falsy, log and reschedule without probing (lines 223-226);
otherwise probe and handle the result. -/
def tickPair (cfg : Config) (env : TickEnv) (t : ℚ)
    (acc : StateMap × List Pair) (p : Pair) :
    Except String (StateMap × List Pair) :=
  if t < (acc.1 p).next_check then .ok acc
  else if truthyStr (env.urlEnv p.2) then
    match processCheck cfg (env.sshEnvOf p.1) env.command (env.sshResOf p)
        (acc.1 p) (probeOf env cfg p) t with
    | .error e => .error e
    | .ok (s', _) => .ok (updateMap acc.1 p s', acc.2 ++ [p])
  else .ok (updateMap acc.1 p (setNextCheck t (acc.1 p)), acc.2)

/-- The `for pair in mappings` loop of one tick. -/
def runTick (cfg : Config) (env : TickEnv) (t : ℚ) :
    List Pair → StateMap × List Pair →
    Except String (StateMap × List Pair)
  | [], acc => .ok acc
  | p :: rest, acc =>
    match tickPair cfg env t acc p with
    | .error e => .error e
    | .ok acc' => runTick cfg env t rest acc'

/-- One tick of the main loop (lines 210-313): capture the time
snapshot once, then process every mapping entry in order. -/
def tick (cfg : Config) (env : TickEnv) (t : ℚ) (mappings : List Pair)
    (states : StateMap) : Except String (StateMap × List Pair) :=
  runTick cfg env t mappings (states, [])

/-- The initial state dicts (lines 196-199): every pair gets the same
optimistic record, and duplicate occurrences in the mapping list
collapse onto one dict entry. -/
def initStates (cfg : Config) : StateMap := fun _ => initState cfg

/-- The pairs a tick actually probed (empty when the tick aborted on
an exception). -/
def checkedOf : Except String (StateMap × List Pair) → List Pair
  | .error _ => []
  | .ok (_, checked) => checked

/-- Whether an `Except` value is a success. -/
def exOk {α : Type} : Except String α → Bool
  | .error _ => false
  | .ok _ => true

/-- How many times a pair occurs in a list of probed pairs. -/
def countOcc (p : Pair) (l : List Pair) : ℕ :=
  l.countP (fun q => decide (q = p))

/-- The invariant the tick loop maintains over its accumulator: the
probed list has no duplicates, every probed pair has been rescheduled
strictly after the snapshot, and every interval is positive. -/
def TickInv (t : ℚ) (acc : StateMap × List Pair) : Prop :=
  acc.2.Nodup ∧ (∀ q ∈ acc.2, t < (acc.1 q).next_check) ∧
    (∀ q, 0 < (acc.1 q).current_interval)

/- Batteries marks the rational operations `@[irreducible]`, which
blocks `decide`/`rfl` evaluation of concrete model runs; restore the
default reducibility for this file. -/
attribute [local semireducible] Rat.add Rat.mul Rat.sub Rat.inv Rat.ofScientific

/-! ### Prober lemmas -/

/-- When every attempt in the window `[attempt, attempt + remaining)`
fails, the retry loop falls through to line 85. -/
theorem checkLoop_all_fail (outcome : ℕ → AttemptOutcome) (maxA : ℕ) :
    ∀ remaining attempt,
      (∀ j, attempt ≤ j → j < attempt + remaining →
        failedAttempt (outcome j) = true) →
      checkLoop outcome maxA remaining attempt = (false, 0, maxA) := by
  intro remaining
  induction remaining with
  | zero => intro attempt _; rfl
  | succ r ih =>
    intro attempt h
    have hfirst : failedAttempt (outcome attempt) = true :=
      h attempt le_rfl (by omega)
    have hrest : ∀ j, attempt + 1 ≤ j → j < attempt + 1 + r →
        failedAttempt (outcome j) = true := by
      intro j h1 h2; exact h j (by omega) (by omega)
    cases ho : outcome attempt with
    | err => simp only [checkLoop, ho]; exact ih (attempt + 1) hrest
    | resp s e =>
      rw [ho] at hfirst
      simp only [failedAttempt, Bool.not_eq_true'] at hfirst
      simp only [checkLoop, ho, hfirst, Bool.false_eq_true, if_false]
      exact ih (attempt + 1) hrest

/-- When attempt `k` lies in the loop's remaining window, every
attempt before `k` fails, and attempt `k` gets a response that
`response.ok` accepts, the loop returns at attempt `k` with that
attempt's rounded latency. -/
theorem checkLoop_first_success (outcome : ℕ → AttemptOutcome)
    (maxA k sc : ℕ) (e : ℚ) (hk : outcome k = AttemptOutcome.resp sc e)
    (hok : respOk sc = true) :
    ∀ remaining attempt, attempt ≤ k → k < attempt + remaining →
      (∀ j, attempt ≤ j → j < k → failedAttempt (outcome j) = true) →
      checkLoop outcome maxA remaining attempt =
        (true, round2 (e * 1000), k) := by
  intro remaining
  induction remaining with
  | zero => intro attempt h1 h2 _; omega
  | succ r ih =>
    intro attempt h1 h2 hfails
    rcases eq_or_lt_of_le h1 with heq | hlt
    · subst heq
      simp only [checkLoop, hk, hok, if_true]
    · have hfirst : failedAttempt (outcome attempt) = true :=
        hfails attempt le_rfl hlt
      have hrest : ∀ j, attempt + 1 ≤ j → j < k →
          failedAttempt (outcome j) = true := by
        intro j hj1 hj2; exact hfails j (by omega) hj2
      cases ho : outcome attempt with
      | err =>
        simp only [checkLoop, ho]
        exact ih (attempt + 1) (by omega) (by omega) hrest
      | resp s' e' =>
        rw [ho] at hfirst
        simp only [failedAttempt, Bool.not_eq_true'] at hfirst
        simp only [checkLoop, ho, hfirst, Bool.false_eq_true, if_false]
        exact ih (attempt + 1) (by omega) (by omega) hrest

/-! ### Backoff lemmas -/

/-- Iterated backoff keeps the interval nonnegative (intervals are
durations). -/
theorem iterInterval_nonneg (c0 f m : ℚ) (h0 : 0 ≤ c0) (hm : 0 ≤ m)
    (hf : 1 ≤ f) : ∀ n, 0 ≤ iterInterval c0 f m n := by
  intro n
  induction n with
  | zero => exact h0
  | succ k ih =>
    exact le_min (mul_nonneg ih (le_trans zero_le_one hf)) hm

/-! ### C8 -/

/-- C8 counterexample: the claim says an attempt counts as a success
exactly when the status is 2xx-3xx, but `response.ok` also accepts the
informational status 101, so a probe answered `101` on its first
attempt is reported reachable although 101 is not in 2xx-3xx. -/
theorem c8_counterexample :
    check_service (fun _ => AttemptOutcome.resp 101 0) 3 = (true, 0, 1) ∧
      ¬ (200 ≤ 101 ∧ 101 ≤ 399) := by
  decide

/-- C8 (amended): an attempt counts as a success exactly when the
status is not an error status (not in 400-599; `response.ok`); on the
first accepted attempt `k` the Prober returns immediately with
`reachable = true`, that attempt's elapsed milliseconds rounded to two
decimals, and the 1-based attempt number `k`, consuming no further
attempts. -/
theorem c8_first_success_returns (outcome : ℕ → AttemptOutcome)
    (maxA k sc : ℕ) (e : ℚ) (hk1 : 1 ≤ k) (hk2 : k ≤ maxA)
    (hfails : ∀ j, 1 ≤ j → j < k → failedAttempt (outcome j) = true)
    (hk : outcome k = AttemptOutcome.resp sc e) (hok : respOk sc = true) :
    check_service outcome maxA = (true, round2 (e * 1000), k) ∧
      ¬ (400 ≤ sc ∧ sc < 600) := by
  constructor
  · exact checkLoop_first_success outcome maxA k sc e hk hok maxA 1 hk1
      (by omega) hfails
  · intro hbad
    simp [respOk, hbad.1, hbad.2] at hok

/-- C8 witness: with three attempts answering error, error, then 200
after half a second, the Prober returns on the third attempt. -/
theorem c8_witness :
    check_service
        (fun j => if j < 3 then AttemptOutcome.err
          else AttemptOutcome.resp 200 (1/2)) 3 =
      (true, round2 ((1/2) * 1000), 3) ∧ ¬ (400 ≤ 200 ∧ 200 < 600) :=
  c8_first_success_returns
    (fun j => if j < 3 then AttemptOutcome.err
      else AttemptOutcome.resp 200 (1/2)) 3 3 200 (1/2)
    (by omega) (by omega)
    (fun j _ hj => by simp [failedAttempt, hj])
    (by simp) (by decide)

/-! ### C9 -/

/-- C9: for every attempt-outcome environment and every
`max_attempts ≥ 1`, when all `max_attempts` attempts fail (a transport
error or a non-ok status, each converted into a failed attempt inside
the retry loop — the model is a total function, matching that
`check_service` never raises), the Prober returns exactly
`(false, 0, max_attempts)`. -/
theorem c9_exhausted_attempts (outcome : ℕ → AttemptOutcome) (maxA : ℕ)
    (_h1 : 1 ≤ maxA)
    (hall : ∀ j, 1 ≤ j → j ≤ maxA → failedAttempt (outcome j) = true) :
    check_service outcome maxA = (false, 0, maxA) := by
  exact checkLoop_all_fail outcome maxA maxA 1
    (fun j hj1 hj2 => hall j hj1 (by omega))

/-- C9 witness: three attempts, all transport errors. -/
theorem c9_witness :
    check_service (fun _ => AttemptOutcome.err) 3 = (false, 0, 3) :=
  c9_exhausted_attempts (fun _ => AttemptOutcome.err) 3 (by omega)
    (fun _ _ _ => rfl)

/-! ### C4 -/

/-- C4: for a starting interval and a cap that are durations
(nonnegative, as typed by the data model) and a backoff factor ≥ 1
(the floor enforced at startup, lines 181-183), every interval the
update `min(current * factor, max)` records during consecutive
failures (`iterInterval _ _ _ n` for `n ≥ 1`) is at most the next
recorded one and never exceeds the cap. -/
theorem c4_backoff_monotone_bounded (c0 f m : ℚ) (n : ℕ) (h0 : 0 ≤ c0)
    (hm : 0 ≤ m) (hf : 1 ≤ f) (hn : 1 ≤ n) :
    iterInterval c0 f m n ≤ iterInterval c0 f m (n + 1) ∧
      iterInterval c0 f m n ≤ m := by
  obtain ⟨k, rfl⟩ : ∃ k, n = k + 1 := ⟨n - 1, by omega⟩
  have hle : iterInterval c0 f m (k + 1) ≤ m := min_le_right _ _
  refine ⟨le_min ?_ hle, hle⟩
  exact le_mul_of_one_le_right (iterInterval_nonneg c0 f m h0 hm hf (k + 1)) hf

/-- C4 witness: base 10, factor 2, cap 60 as in the spec's example;
the second recorded interval (40) is at least the first (20) and both
are at most 60. -/
theorem c4_witness :
    iterInterval 10 2 60 1 ≤ iterInterval 10 2 60 2 ∧
      iterInterval 10 2 60 1 ≤ 60 :=
  c4_backoff_monotone_bounded 10 2 60 1 (by decide) (by decide)
    (by decide) (by decide)

/-! ### C1 -/

/-- C1: when a pair is in the Unavailable state and the probe
succeeds, the check takes the recovery transition (lines 250-269): a
recovered alert is emitted carrying the `recovery_attempts` value as
it stood before the reset, and in the resulting state — regardless of
how large the interval had grown — `recovery_attempts` is 0 and
`current_interval` is `base_interval` (the `next_checks` write then
uses the reset interval). -/
theorem c1_recovery_alert_and_reset (cfg : Config) (envS : SSHEnv)
    (cmd : String) (sshRes : Bool × String) (s : PairState)
    (pr : ProbeResult) (t : ℚ) (hdown : s.available = false)
    (hup : pr.isAvailable = true) :
    processCheck cfg envS cmd sshRes s pr t =
      .ok (⟨true, cfg.base_interval, 0, t + cfg.base_interval⟩,
        [Effect.alert cfg.base_interval s.attempt_counter true]) := by
  simp [processCheck, hup, checkSuccess, handleSuccess, hdown, setNextCheck]

/-- C1 witness: a pair that is down with 3 recovery attempts and an
interval grown to 40 recovers at snapshot time 7: the alert carries 3,
and the state resets to counter 0 and interval 10. -/
theorem c1_witness :
    processCheck ⟨10, 300, 2, 3⟩ ⟨none, none, none, none, none⟩ "cmd"
        (true, "") ⟨false, 40, 3, 0⟩ ⟨true, 5, 1⟩ 7 =
      .ok (⟨true, 10, 0, 7 + 10⟩, [Effect.alert 10 3 true]) :=
  c1_recovery_alert_and_reset ⟨10, 300, 2, 3⟩ ⟨none, none, none, none, none⟩
    "cmd" (true, "") ⟨false, 40, 3, 0⟩ ⟨true, 5, 1⟩ 7 rfl rfl

/-! ### C2 -/

/-- C2: on every check whose probe reports failure, for a site whose
SSH configuration passes the completeness gate of line 276, exactly
one remediation command execution happens (lines 274-284) — in every
state, so remediation fires on the first failure and on every repeat
failure while the pair is already Unavailable, and is never skipped
after the first failure. -/
theorem c2_remediation_on_every_failed_check (cfg : Config)
    (envS : SSHEnv) (cmd : String) (sshRes : Bool × String)
    (s : PairState) (pr : ProbeResult) (t : ℚ)
    (hfail : pr.isAvailable = false) (hcomp : sshComplete envS = true) :
    remediationCount (processCheck cfg envS cmd sshRes s pr t) = 1 := by
  unfold sshComplete at hcomp
  cases hg : get_ssh_config envS with
  | error e => rw [hg] at hcomp; simp at hcomp
  | ok c =>
    rw [hg] at hcomp
    have hcomp' : allTruthy c = true := by simpa using hcomp
    simp [processCheck, hfail, hg, Except.map, remediationCount,
      checkFailure, handleFailure, hcomp', countRemediate, isRemediate,
      List.countP_cons, List.countP_nil]

/-- C2 witness: a complete SSH configuration and a pair that is
already Unavailable (counter 2): the repeat failed check still runs
the command exactly once. -/
theorem c2_witness :
    remediationCount (processCheck ⟨10, 300, 2, 3⟩
        ⟨some "h", some "22", some "u", some "pw", some "k"⟩ "restart"
        (true, "out") ⟨false, 40, 2, 0⟩ ⟨false, 0, 3⟩ 5) = 1 :=
  c2_remediation_on_every_failed_check ⟨10, 300, 2, 3⟩
    ⟨some "h", some "22", some "u", some "pw", some "k"⟩ "restart"
    (true, "out") ⟨false, 40, 2, 0⟩ ⟨false, 0, 3⟩ 5 rfl (by decide)

/-! ### C3 -/

/-- C3 counterexample: nothing at startup clamps `base_interval`
against `max_interval` (lines 176-183 clamp only the factor), so with
`INTERVAL = 400` and `MAX_INTERVAL = 300` the claimed invariant
`base_interval ≤ current_interval ≤ max_interval` is already false at
initialization. -/
theorem c3_counterexample :
    ¬ ((⟨400, 300, 2, 3⟩ : Config).base_interval ≤
          (initState ⟨400, 300, 2, 3⟩).current_interval ∧
        (initState ⟨400, 300, 2, 3⟩).current_interval ≤
          (⟨400, 300, 2, 3⟩ : Config).max_interval) := by
  decide

/-- One checked tick keeps the interval inside
`[base_interval, max_interval]` when the configuration satisfies
`0 ≤ base_interval ≤ max_interval` and the clamped factor is ≥ 1. -/
theorem stepCheck_interval_bounds (cfg : Config) (c : SSHConfig)
    (cmd : String) (h0 : 0 ≤ cfg.base_interval)
    (hbm : cfg.base_interval ≤ cfg.max_interval)
    (hf : 1 ≤ cfg.backoff_factor) (s : PairState) (i : CheckInput)
    (hs : cfg.base_interval ≤ s.current_interval ∧
      s.current_interval ≤ cfg.max_interval) :
    cfg.base_interval ≤ (stepCheck cfg c cmd s i).current_interval ∧
      (stepCheck cfg c cmd s i).current_interval ≤ cfg.max_interval := by
  obtain ⟨hs1, hs2⟩ := hs
  unfold stepCheck checkSuccess checkFailure handleSuccess handleFailure
    setNextCheck nextInterval
  by_cases hi : i.isAvailable
  · simp only [hi, if_true]
    by_cases ha : s.available
    · simpa [ha] using ⟨hs1, hs2⟩
    · simp [ha]
      exact hbm
  · simp only [hi, Bool.false_eq_true, if_false]
    constructor
    · exact le_min
        (le_trans hs1 (le_mul_of_one_le_right (le_trans h0 hs1) hf)) hbm
    · exact min_le_right _ _

/-- The interval bounds hold after any sequence of checked ticks. -/
theorem foldl_interval_bounds (cfg : Config) (c : SSHConfig)
    (cmd : String) (h0 : 0 ≤ cfg.base_interval)
    (hbm : cfg.base_interval ≤ cfg.max_interval)
    (hf : 1 ≤ cfg.backoff_factor) :
    ∀ (inputs : List CheckInput) (s : PairState),
      cfg.base_interval ≤ s.current_interval ∧
        s.current_interval ≤ cfg.max_interval →
      cfg.base_interval ≤
          (inputs.foldl (stepCheck cfg c cmd) s).current_interval ∧
        (inputs.foldl (stepCheck cfg c cmd) s).current_interval ≤
          cfg.max_interval := by
  intro inputs
  induction inputs with
  | nil => intro s hs; exact hs
  | cons i rest ih =>
    intro s hs
    exact ih (stepCheck cfg c cmd s i)
      (stepCheck_interval_bounds cfg c cmd h0 hbm hf s i hs)

/-- C3 (amended): provided the configured `base_interval` is a
duration of at most `max_interval` (the code never validates this) and
the factor has been clamped to ≥ 1, then
`base_interval ≤ current_interval ≤ max_interval` holds at
initialization and after every checked tick — every backoff update on
failure and every reset on recovery included. -/
theorem c3_interval_bounds_amended (cfg : Config) (c : SSHConfig)
    (cmd : String) (inputs : List CheckInput)
    (h0 : 0 ≤ cfg.base_interval)
    (hbm : cfg.base_interval ≤ cfg.max_interval)
    (hf : 1 ≤ cfg.backoff_factor) :
    cfg.base_interval ≤ (runChecks cfg c cmd inputs).current_interval ∧
      (runChecks cfg c cmd inputs).current_interval ≤ cfg.max_interval :=
  foldl_interval_bounds cfg c cmd h0 hbm hf inputs (initState cfg)
    ⟨le_refl _, hbm⟩

/-- C3 witness: base 10, cap 300, factor 2, with two failures and a
recovery: the resulting interval is inside the bounds. -/
theorem c3_witness :
    (⟨10, 300, 2, 3⟩ : Config).base_interval ≤
        (runChecks ⟨10, 300, 2, 3⟩ ⟨some "h", 22, some "u", some "pw", some "k"⟩
          "restart" [⟨false, (true, ""), 0⟩, ⟨false, (false, "x"), 20⟩,
            ⟨true, (true, ""), 60⟩]).current_interval ∧
      (runChecks ⟨10, 300, 2, 3⟩ ⟨some "h", 22, some "u", some "pw", some "k"⟩
          "restart" [⟨false, (true, ""), 0⟩, ⟨false, (false, "x"), 20⟩,
            ⟨true, (true, ""), 60⟩]).current_interval ≤
        (⟨10, 300, 2, 3⟩ : Config).max_interval :=
  c3_interval_bounds_amended ⟨10, 300, 2, 3⟩
    ⟨some "h", 22, some "u", some "pw", some "k"⟩ "restart"
    [⟨false, (true, ""), 0⟩, ⟨false, (false, "x"), 20⟩,
      ⟨true, (true, ""), 60⟩] (by decide) (by decide) (by decide)

/-! ### C5 -/

/-- C5 counterexample: `next_checks[pair]` is written as
`current_time + current_intervals[pair]` from the tick-start snapshot
(lines 211 and 313), not from the check's completion time. With the
base interval 5 and a check that took 30 seconds of wall clock (three
probe attempts at the 10-second request timeout), the written
`next_check_at` (5) is strictly before the completion time (30),
refuting the claim. -/
theorem c5_counterexample :
    ((checkSuccess ⟨5, 300, 2, 3⟩ (initState ⟨5, 300, 2, 3⟩) 0).1).next_check <
      checkCompletion 0 30 := by
  decide

/-- C5 (amended): the `next_check_at` written at the end of a check is
at least the tick-start snapshot time `t` at which the check began
(not its completion time): with duration-typed configuration and
state, both the success path and the failure path write
`t + current_interval ≥ t`. -/
theorem c5_next_check_after_snapshot (cfg : Config) (c : SSHConfig)
    (cmd : String) (sshRes : Bool × String) (s : PairState) (t : ℚ)
    (h0 : 0 ≤ cfg.base_interval) (hm : 0 ≤ cfg.max_interval)
    (hi : 0 ≤ s.current_interval) (hf : 1 ≤ cfg.backoff_factor) :
    t ≤ ((checkSuccess cfg s t).1).next_check ∧
      t ≤ ((checkFailure cfg c cmd sshRes s t).1).next_check := by
  constructor
  · have h1 : t ≤ t + s.current_interval := le_add_of_nonneg_right hi
    have h2 : t ≤ t + cfg.base_interval := le_add_of_nonneg_right h0
    by_cases ha : s.available
    · simpa [checkSuccess, handleSuccess, setNextCheck, ha] using h1
    · simpa [checkSuccess, handleSuccess, setNextCheck, ha] using h2
  · have h3 : t ≤ t +
        min (s.current_interval * cfg.backoff_factor) cfg.max_interval :=
      le_add_of_nonneg_right
        (le_min (mul_nonneg hi (le_trans zero_le_one hf)) hm)
    simpa [checkFailure, handleFailure, setNextCheck, nextInterval] using h3

/-- C5 witness: concrete instance of the amended bound. -/
theorem c5_witness :
    (7 : ℚ) ≤ ((checkSuccess ⟨10, 300, 2, 3⟩ ⟨false, 40, 3, 0⟩ 7).1).next_check ∧
      (7 : ℚ) ≤ ((checkFailure ⟨10, 300, 2, 3⟩
        ⟨some "h", 22, some "u", some "pw", some "k"⟩ "restart" (true, "")
        ⟨false, 40, 3, 0⟩ 7).1).next_check :=
  c5_next_check_after_snapshot ⟨10, 300, 2, 3⟩
    ⟨some "h", 22, some "u", some "pw", some "k"⟩ "restart" (true, "")
    ⟨false, 40, 3, 0⟩ 7 (by decide) (by decide) (by decide) (by decide)

/-! ### C7 -/

/-- C7: the claim (and §4.4 of the spec) says a site with host,
username and a password credential alone is complete, but the gate
`all(dc_config.values())` (line 276) also demands a truthy `key` (and
password), so a password-only site is skipped with the "incomplete SSH
configuration" error — even though `execute_ssh_command`'s own
credential selection (lines 99-103) would use the password, making its
password branch unreachable from `main`. The conjunction exhibits the
contradiction: the failed check executes no command for a
password-only site, while the Remediator itself would accept exactly
that configuration. -/
theorem c7_password_only_site_skipped :
    remediationCount (processCheck ⟨10, 300, 2, 3⟩
        ⟨some "dc1.example.com", none, some "admin", some "secret", none⟩
        "restart" (true, "") (initState ⟨10, 300, 2, 3⟩) ⟨false, 0, 3⟩ 0) = 0 ∧
      credentialUsed ⟨some "dc1.example.com", 22, some "admin",
        some "secret", none⟩ = Cred.password := by
  decide

/-! ### C6 -/

/-- Handling one probed pair never aborts as long as `get_ssh_config`
does not raise: the probe result, the SSH command result and the
notification outcome are all plain values. -/
theorem processCheck_isOk (cfg : Config) (envS : SSHEnv) (cmd : String)
    (sshRes : Bool × String) (s : PairState) (pr : ProbeResult) (t : ℚ)
    (h : exOk (get_ssh_config envS) = true) :
    exOk (processCheck cfg envS cmd sshRes s pr t) = true := by
  by_cases ha : pr.isAvailable
  · simp [processCheck, ha, exOk]
  · cases hg : get_ssh_config envS with
    | error e => rw [hg] at h; simp [exOk] at h
    | ok c => simp [processCheck, ha, hg, Except.map, exOk]

/-- One iteration of the per-pair loop never aborts as long as the
pair's site SSH address parses. -/
theorem tickPair_isOk (cfg : Config) (env : TickEnv) (t : ℚ)
    (acc : StateMap × List Pair) (p : Pair)
    (h : exOk (get_ssh_config (env.sshEnvOf p.1)) = true) :
    exOk (tickPair cfg env t acc p) = true := by
  unfold tickPair
  by_cases h1 : t < (acc.1 p).next_check
  · simp [h1, exOk]
  · by_cases h2 : truthyStr (env.urlEnv p.2) = true
    · have hok := processCheck_isOk cfg (env.sshEnvOf p.1) env.command
        (env.sshResOf p) (acc.1 p) (probeOf env cfg p) t h
      cases hpc : processCheck cfg (env.sshEnvOf p.1) env.command
          (env.sshResOf p) (acc.1 p) (probeOf env cfg p) t with
      | error e => rw [hpc] at hok; simp [exOk] at hok
      | ok pr => simp [h1, h2, hpc, exOk]
    · simp [h1, h2, exOk]

/-- The pair loop of a tick never aborts when every listed site's SSH
address parses, whatever any probe, remediation or notification did. -/
theorem runTick_isOk (cfg : Config) (env : TickEnv) (t : ℚ) :
    ∀ (l : List Pair) (acc : StateMap × List Pair),
      (∀ p ∈ l, exOk (get_ssh_config (env.sshEnvOf p.1)) = true) →
      exOk (runTick cfg env t l acc) = true := by
  intro l
  induction l with
  | nil => intro acc _; simp [runTick, exOk]
  | cons p rest ih =>
    intro acc h
    have hp := h p (List.mem_cons_self p rest)
    have htp := tickPair_isOk cfg env t acc p hp
    cases hpc : tickPair cfg env t acc p with
    | error e => rw [hpc] at htp; simp [exOk] at htp
    | ok acc' =>
      simp only [runTick, hpc]
      exact ih acc' (fun q hq => h q (List.mem_cons_of_mem p hq))

/-- C6 counterexample: with `DC1_SSH_PORT` set to the non-numeric
string `"abc"`, the `int(...)` conversion inside `get_ssh_config`
raises on the first failed check and the exception propagates out of
the loop — an error arising from a single pair's remediation path is
not locally recovered. -/
theorem c6_counterexample :
    exOk (tick ⟨5, 300, 2, 3⟩
      ⟨fun _ => some "http://svc", fun _ => ⟨some "h", some "abc",
        some "u", some "pw", some "k"⟩, fun _ _ => AttemptOutcome.err,
        fun _ => (false, ""), "restart"⟩
      0 [("dc1", "api")] (initStates ⟨5, 300, 2, 3⟩)) = false := by
  decide

/-- C6 (amended): provided every listed site's SSH port variable
parses as an integer (unset defaults to 22), a tick never aborts:
whatever every pair's probe attempts returned, whatever every SSH
command returned, and whatever the notification transport did, the
loop proceeds through all pairs to the end of the tick. -/
theorem c6_loop_survives_pair_failures (cfg : Config) (env : TickEnv)
    (t : ℚ) (mappings : List Pair) (states : StateMap)
    (hports : ∀ p ∈ mappings,
      exOk (get_ssh_config (env.sshEnvOf p.1)) = true) :
    exOk (tick cfg env t mappings states) = true :=
  runTick_isOk cfg env t mappings (states, []) hports

/-- C6 witness: one pair with a failing probe and a failing SSH
command; the tick completes. -/
theorem c6_witness :
    exOk (tick ⟨5, 300, 2, 3⟩
      ⟨fun _ => some "http://svc", fun _ => ⟨some "h", some "22",
        some "u", some "pw", some "k"⟩, fun _ _ => AttemptOutcome.err,
        fun _ => (false, "auth failed"), "restart"⟩
      0 [("dc1", "api")] (initStates ⟨5, 300, 2, 3⟩)) = true :=
  c6_loop_survives_pair_failures ⟨5, 300, 2, 3⟩
    ⟨fun _ => some "http://svc", fun _ => ⟨some "h", some "22",
      some "u", some "pw", some "k"⟩, fun _ _ => AttemptOutcome.err,
      fun _ => (false, "auth failed"), "restart"⟩
    0 [("dc1", "api")] (initStates ⟨5, 300, 2, 3⟩)
    (fun _ _ => rfl)

/-! ### C10 -/

/-- A successfully handled check leaves a positive interval (given a
positive base, a positive cap and a clamped factor) and reschedules
the pair at the snapshot plus that interval. -/
theorem processCheck_ok_state (cfg : Config) (envS : SSHEnv)
    (cmd : String) (sshRes : Bool × String) (s : PairState)
    (pr : ProbeResult) (t : ℚ) (s' : PairState) (effs : List Effect)
    (hb : 0 < cfg.base_interval) (hm : 0 < cfg.max_interval)
    (hf : 1 ≤ cfg.backoff_factor) (hi : 0 < s.current_interval)
    (h : processCheck cfg envS cmd sshRes s pr t = .ok (s', effs)) :
    0 < s'.current_interval ∧ s'.next_check = t + s'.current_interval := by
  by_cases ha : pr.isAvailable
  · simp only [processCheck, ha, if_true, Except.ok.injEq] at h
    have hs' : (checkSuccess cfg s t).1 = s' := congrArg Prod.fst h
    rw [← hs']
    by_cases hav : s.available
    · constructor
      · simpa [checkSuccess, handleSuccess, setNextCheck, hav] using hi
      · simp [checkSuccess, handleSuccess, setNextCheck, hav]
    · constructor
      · simpa [checkSuccess, handleSuccess, setNextCheck, hav] using hb
      · simp [checkSuccess, handleSuccess, setNextCheck, hav]
  · cases hg : get_ssh_config envS with
    | error e => simp [processCheck, ha, hg, Except.map] at h
    | ok c =>
      simp only [processCheck, ha, if_false, Bool.false_eq_true, hg,
        Except.map, Except.ok.injEq] at h
      have hs' : (checkFailure cfg c cmd sshRes s t).1 = s' :=
        congrArg Prod.fst h
      rw [← hs']
      constructor
      · have : 0 < min (s.current_interval * cfg.backoff_factor)
            cfg.max_interval :=
          lt_min (mul_pos hi (lt_of_lt_of_le one_pos hf)) hm
        simpa [checkFailure, handleFailure, setNextCheck, nextInterval]
          using this
      · simp [checkFailure, handleFailure, setNextCheck, nextInterval]

/-- One iteration of the per-pair loop preserves the tick invariant. -/
theorem tickPair_preserves_inv (cfg : Config) (env : TickEnv) (t : ℚ)
    (hb : 0 < cfg.base_interval) (hm : 0 < cfg.max_interval)
    (hf : 1 ≤ cfg.backoff_factor) (acc acc' : StateMap × List Pair)
    (p : Pair) (hinv : TickInv t acc)
    (h : tickPair cfg env t acc p = .ok acc') : TickInv t acc' := by
  obtain ⟨hnd, hmem, hpos⟩ := hinv
  by_cases h1 : t < (acc.1 p).next_check
  · simp only [tickPair, h1, if_true, Except.ok.injEq] at h
    rw [← h]; exact ⟨hnd, hmem, hpos⟩
  · have hnp : p ∉ acc.2 := fun hp => h1 (hmem p hp)
    by_cases h2 : truthyStr (env.urlEnv p.2) = true
    · cases hpc : processCheck cfg (env.sshEnvOf p.1) env.command
          (env.sshResOf p) (acc.1 p) (probeOf env cfg p) t with
      | error e => simp [tickPair, h1, h2, hpc] at h
      | ok pr =>
        obtain ⟨s', effs⟩ := pr
        obtain ⟨hpos', hnext'⟩ := processCheck_ok_state cfg
          (env.sshEnvOf p.1) env.command (env.sshResOf p) (acc.1 p)
          (probeOf env cfg p) t s' effs hb hm hf (hpos p) hpc
        simp only [tickPair, h1, if_false, h2, if_true, hpc,
          Except.ok.injEq] at h
        rw [← h]
        refine ⟨?_, ?_, ?_⟩
        · exact hnd.append (List.nodup_singleton p)
            (fun a ha hpa => hnp ((List.mem_singleton.mp hpa) ▸ ha))
        · intro q hq
          rcases List.mem_append.mp hq with hq1 | hq2
          · have hqp : q ≠ p := fun e => hnp (e ▸ hq1)
            simpa [updateMap, hqp] using hmem q hq1
          · have hqp : q = p := List.mem_singleton.mp hq2
            subst hqp
            simpa [updateMap, hnext'] using lt_add_of_pos_right t hpos'
        · intro q
          by_cases hqp : q = p
          · subst hqp; simpa [updateMap] using hpos'
          · simpa [updateMap, hqp] using hpos q
    · simp only [tickPair, h1, if_false, h2, Bool.false_eq_true,
        Except.ok.injEq] at h
      rw [← h]
      refine ⟨hnd, ?_, ?_⟩
      · intro q hq
        have hqp : q ≠ p := fun e => hnp (e ▸ hq)
        simpa [updateMap, hqp] using hmem q hq
      · intro q
        by_cases hqp : q = p
        · simpa [updateMap, hqp, setNextCheck] using hpos p
        · simpa [updateMap, hqp] using hpos q

/-- The pair loop of a tick preserves the tick invariant. -/
theorem runTick_preserves_inv (cfg : Config) (env : TickEnv) (t : ℚ)
    (hb : 0 < cfg.base_interval) (hm : 0 < cfg.max_interval)
    (hf : 1 ≤ cfg.backoff_factor) :
    ∀ (l : List Pair) (acc res : StateMap × List Pair), TickInv t acc →
      runTick cfg env t l acc = .ok res → TickInv t res := by
  intro l
  induction l with
  | nil =>
    intro acc res hinv h
    simp only [runTick, Except.ok.injEq] at h
    rw [← h]; exact hinv
  | cons p rest ih =>
    intro acc res hinv h
    cases hpc : tickPair cfg env t acc p with
    | error e => simp [runTick, hpc] at h
    | ok acc' =>
      simp only [runTick, hpc] at h
      exact ih acc' res
        (tickPair_preserves_inv cfg env t hb hm hf acc acc' p hinv hpc) h

/-- A list without duplicates contains each pair at most once. -/
theorem countOcc_le_one_of_nodup (p : Pair) :
    ∀ (l : List Pair), l.Nodup → countOcc p l ≤ 1 := by
  intro l
  induction l with
  | nil => intro _; exact Nat.zero_le 1
  | cons a rest ih =>
    intro hnd
    obtain ⟨hna, hnd'⟩ := List.nodup_cons.mp hnd
    by_cases hap : a = p
    · subst hap
      have hstep : countOcc a (a :: rest) = countOcc a rest + 1 := by
        simp [countOcc, List.countP_cons]
      have hz : countOcc a rest = 0 := by
        simp only [countOcc, List.countP_eq_zero, decide_eq_true_eq]
        exact fun q hq e => hna (e ▸ hq)
      rw [hstep, hz]
    · have hstep : countOcc p (a :: rest) = countOcc p rest := by
        simp [countOcc, List.countP_cons, hap]
      rw [hstep]
      exact ih hnd'

/-- C10 counterexample: with `INTERVAL = 0` (a valid duration) a
checked pair is rescheduled at `next_check = t + 0 = t`, which does
not exceed the tick's snapshot, so a duplicated mapping entry is
probed twice within the same tick — the claimed "at most one check
per pair per tick" fails. -/
theorem c10_counterexample :
    checkedOf (tick ⟨0, 300, 2, 3⟩
      ⟨fun _ => some "http://svc", fun _ => ⟨some "h", some "22",
        some "u", some "pw", some "k"⟩,
        fun _ _ => AttemptOutcome.resp 200 0, fun _ => (true, ""),
        "restart"⟩
      0 [("dc1", "api"), ("dc1", "api")] (initStates ⟨0, 300, 2, 3⟩)) =
      [("dc1", "api"), ("dc1", "api")] := by
  decide

/-- C10 (amended): duplicate occurrences of a pair share one state
record (the state dicts are keyed by the pair, modelled by a single
map), and provided the base interval and the cap are positive
durations, the factor is clamped ≥ 1, and every current interval is
positive, a tick probes each pair at most once: after the first
occurrence is checked the shared `next_check` strictly exceeds the
tick snapshot, so later duplicate occurrences are skipped. -/
theorem c10_at_most_one_check_per_tick (cfg : Config) (env : TickEnv)
    (t : ℚ) (mappings : List Pair) (states : StateMap) (p : Pair)
    (hb : 0 < cfg.base_interval) (hm : 0 < cfg.max_interval)
    (hf : 1 ≤ cfg.backoff_factor)
    (hs : ∀ q, 0 < (states q).current_interval) :
    countOcc p (checkedOf (tick cfg env t mappings states)) ≤ 1 := by
  cases ht : tick cfg env t mappings states with
  | error e => simp [checkedOf, countOcc]
  | ok res =>
    have hinv : TickInv t res :=
      runTick_preserves_inv cfg env t hb hm hf mappings (states, []) res
        ⟨List.nodup_nil, by simp, hs⟩ ht
    simp only [checkedOf]
    exact countOcc_le_one_of_nodup p res.2 hinv.1

/-- C10 witness: a duplicated mapping entry with a positive base
interval is probed at most once in the tick. -/
theorem c10_witness :
    countOcc ("dc1", "api") (checkedOf (tick ⟨10, 300, 2, 3⟩
      ⟨fun _ => some "http://svc", fun _ => ⟨some "h", some "22",
        some "u", some "pw", some "k"⟩,
        fun _ _ => AttemptOutcome.resp 200 0, fun _ => (true, ""),
        "restart"⟩
      0 [("dc1", "api"), ("dc1", "api")]
      (initStates ⟨10, 300, 2, 3⟩))) ≤ 1 :=
  c10_at_most_one_check_per_tick ⟨10, 300, 2, 3⟩
    ⟨fun _ => some "http://svc", fun _ => ⟨some "h", some "22",
      some "u", some "pw", some "k"⟩,
      fun _ _ => AttemptOutcome.resp 200 0, fun _ => (true, ""),
      "restart"⟩
    0 [("dc1", "api"), ("dc1", "api")] (initStates ⟨10, 300, 2, 3⟩)
    ("dc1", "api") (by decide) (by decide) (by decide)
    (fun _ => by show (0:ℚ) < 10; decide)

end VpnMonitor
